import Mathlib

/-!
Verification development for the Siet-Bus-Tracking repository.

The embedding below translates the algorithmic core of the repository into
Lean definitions:

* the route-progress engine of `src/screens/MapScreen.js` (`routeProgress`,
  `nearestIndex`, `isAtStop`, `etaForDistance`),
* the bus-location subscriber callbacks of `src/screens/MapScreen.js` and
  `src/screens/BusLiveTrackingScreen.js`,
* the recipient resolver and token pruner of the notification server
  (`getRecipientsByBus`, `getRecipientsByRole`, `removeTokens`),
* the trip-start relay entry point `notifyBusTrackingStarted` of
  `src/services/firebaseConfig.js`,
* the location-update admission filter (modelled from the spec, since
  `locationService.js` itself is not part of the provided sources).

JavaScript numbers are modelled as rationals (`ℚ`); a JS number that may be
missing or non-finite is modelled as `Option ℚ` with `none` standing for
"absent or not finite" (`Number.isFinite` becomes `Option.isSome`).
JavaScript fields that distinguish `undefined` from `null` from a value are
modelled with the three-valued `JsOpt`.
-/

/-! ## Route-progress engine (src/screens/MapScreen.js, routeProgress) -/

/-- Stop classification produced by `routeProgress` in MapScreen.js. -/
inductive StopStatus where
  | completed : StopStatus
  | current : StopStatus
  | next : StopStatus
  | upcoming : StopStatus
deriving DecidableEq, Inhabited

/-- A route stop after the `enrichedStops` map in `routeProgress`:
`distanceMeters` is the haversine distance from the current bus location to
the stop (the geometry is abstracted into this field: every location sample
induces one such distance per stop), `time` is the optional scheduled time
(`none` models an absent or empty `stop.time`).  The display-only fields
(`id`, `name`, coordinates) are omitted; no claim mentions them. -/
structure EnrichedStop where
  distanceMeters : ℚ
  time : Option String := none
deriving DecidableEq, Inhabited

/-- `const ARRIVAL_DISTANCE_THRESHOLD = 140; // meters` (MapScreen.js:82). -/
def ARRIVAL_DISTANCE_THRESHOLD : ℚ := 140

/-- `distances.reduce((best, distance, idx) => (distance < distances[best] ? idx : best), 0)`
(MapScreen.js:255-258).  `getD _ 0` matches the JS indexing `distances[best]`;
the accumulator is always in range when the list is non-empty, so the default
is never consulted on the reachable states. -/
def nearestIndex (distances : List ℚ) : Nat :=
  distances.enum.foldl
    (fun best p => if p.2 < distances.getD best 0 then p.1 else best) 0

/-- `const nearestDistance = distances[nearestIndex]` (MapScreen.js:259). -/
def nearestDistance (distances : List ℚ) : ℚ :=
  distances.getD (nearestIndex distances) 0

/-- `const isAtStop = nearestDistance <= ARRIVAL_DISTANCE_THRESHOLD` (MapScreen.js:261). -/
def isAtStop (distances : List ℚ) : Bool :=
  decide (nearestDistance distances ≤ ARRIVAL_DISTANCE_THRESHOLD)

/-- `const currentIndex = isAtStop ? nearestIndex : -1` (MapScreen.js:262). -/
def trackedCurrentIndex (distances : List ℚ) : Int :=
  if isAtStop distances = true then (nearestIndex distances : Int) else -1

/-- `let nextIndex = isAtStop ? nearestIndex + 1 : nearestIndex` (MapScreen.js:263). -/
def trackedNextIndexRaw (distances : List ℚ) : Int :=
  if isAtStop distances = true then (nearestIndex distances : Int) + 1
  else (nearestIndex distances : Int)

/-- `if (nextIndex >= enrichedStops.length) nextIndex = -1;` (MapScreen.js:264-266). -/
def trackedNextIndex (distances : List ℚ) : Int :=
  if (distances.length : Int) ≤ trackedNextIndexRaw distances then -1
  else trackedNextIndexRaw distances

/-- `const lastCompletedIndex = Math.max(nearestIndex - 1, -1)` (MapScreen.js:267). -/
def lastCompletedIndex (distances : List ℚ) : Int :=
  max ((nearestIndex distances : Int) - 1) (-1)

/-- First status pass (MapScreen.js:281-284): `upcoming`, overwritten with
`completed` when `idx <= lastCompletedIndex`. -/
def statusBase (distances : List ℚ) (idx : Nat) : StopStatus :=
  if (idx : Int) ≤ lastCompletedIndex distances then StopStatus.completed
  else StopStatus.upcoming

/-- Status assignment of the decorated stop at index `idx` (MapScreen.js:281-289):
the first pass is overridden with `current` when `isAtStop && idx === nearestIndex`,
else with `next` when `idx === nextIndex`. -/
def statusAt (distances : List ℚ) (idx : Nat) : StopStatus :=
  if isAtStop distances = true ∧ idx = nearestIndex distances then StopStatus.current
  else if (idx : Int) = trackedNextIndex distances then StopStatus.next
  else statusBase distances idx

/-- `const minutes = Math.max(Math.round((distance / Math.max(busSpeed, 0.1)) / 60), 1)`
(MapScreen.js:276).  JS `Math.round` agrees with Mathlib's `round` (both are
floor of x + 1/2); `0.1` is exact as a rational. -/
def etaMinutes (busSpeed distance : ℚ) : Int :=
  max (round (distance / max busSpeed (1/10) / 60)) 1

/-- `etaForDistance` (MapScreen.js:269-278).  The leading
`Number.isFinite(distance)` guard of the source always passes here because
`ℚ` has no non-finite values; `0.5` is exact as a rational. -/
def etaForDistance (busSpeed distance : ℚ) : String :=
  if busSpeed ≤ 1/2 then "Awaiting movement"
  else if etaMinutes busSpeed distance ≤ 1 then "Arriving now"
  else "Arriving in " ++ toString (etaMinutes busSpeed distance) ++ " min"

/-- Per-status `etaLabel` (the `switch` of MapScreen.js:292-304). -/
def etaLabelFor (busSpeed : ℚ) (status : StopStatus) (stop : EnrichedStop) : String :=
  match status with
  | StopStatus.completed =>
      match stop.time with
      | some t => "Departed at " ++ t
      | none => "Departed"
  | StopStatus.current => "At stop"
  | StopStatus.next => etaForDistance busSpeed stop.distanceMeters
  | StopStatus.upcoming =>
      match stop.time with
      | some t => "Scheduled " ++ t
      | none => "Upcoming stop"

/-- A stop as decorated by `routeProgress` (status plus eta label). -/
structure DecoratedStop where
  distanceMeters : ℚ
  time : Option String := none
  status : StopStatus
  etaLabel : String
deriving DecidableEq, Inhabited

/-- Result shape of `routeProgress` (MapScreen.js:229-314). -/
structure RouteProgress where
  stops : List DecoratedStop
  currentIndex : Int
  nextIndex : Int
deriving DecidableEq, Inhabited

/-- The `!busLocation || !isBusTracking` branch (MapScreen.js:239-249):
index 0 becomes `next`, all others `upcoming`. -/
def routeProgressUntracked (stops : List EnrichedStop) : RouteProgress :=
  { stops := stops.enum.map (fun p =>
      { distanceMeters := p.2.distanceMeters, time := p.2.time,
        status := if p.1 = 0 then StopStatus.next else StopStatus.upcoming,
        etaLabel :=
          match p.2.time with
          | some t => "ETA " ++ t
          | none => "Upcoming stop" }),
    currentIndex := -1,
    nextIndex := if stops.length ≠ 0 then 0 else -1 }

/-- The tracked branch of `routeProgress` (MapScreen.js:251-313). -/
def routeProgressTracked (busSpeed : ℚ) (stops : List EnrichedStop) : RouteProgress :=
  let distances := stops.map (fun s => s.distanceMeters)
  { stops := stops.enum.map (fun p =>
      let status := statusAt distances p.1
      { distanceMeters := p.2.distanceMeters, time := p.2.time,
        status := status,
        etaLabel := etaLabelFor busSpeed status p.2 }),
    currentIndex := trackedCurrentIndex distances,
    nextIndex := trackedNextIndex distances }

/-- Full `routeProgress` (MapScreen.js:229-314).  `hasSample` models
`busLocation` being non-null, `tracking` models `isBusTracking`. -/
def routeProgress (hasSample tracking : Bool) (busSpeed : ℚ)
    (stops : List EnrichedStop) : RouteProgress :=
  if stops.length = 0 then { stops := [], currentIndex := -1, nextIndex := -1 }
  else if hasSample = false ∨ tracking = false then routeProgressUntracked stops
  else routeProgressTracked busSpeed stops

/-! ### Helper lemmas about the nearest-stop fold -/

lemma nearestFold_spec (d : List ℚ) :
    ∀ (l : List ℚ) (n best : Nat),
      d.drop n = l → best < d.length → best ≤ n →
      (∀ j, j < n → d.getD best 0 ≤ d.getD j 0) →
      (∀ j, j < best → d.getD best 0 < d.getD j 0) →
      ((l.enumFrom n).foldl (fun b p => if p.2 < d.getD b 0 then p.1 else b) best) < d.length ∧
      (∀ j, j < n + l.length →
        d.getD ((l.enumFrom n).foldl (fun b p => if p.2 < d.getD b 0 then p.1 else b) best) 0 ≤ d.getD j 0) ∧
      (∀ j, j < (l.enumFrom n).foldl (fun b p => if p.2 < d.getD b 0 then p.1 else b) best →
        d.getD ((l.enumFrom n).foldl (fun b p => if p.2 < d.getD b 0 then p.1 else b) best) 0 < d.getD j 0) := by
  intro l
  induction l with
  | nil =>
    intro n best hdrop hblen hbn hmin hstrict
    simp only [List.enumFrom, List.foldl]
    refine ⟨hblen, ?_, ?_⟩
    · intro j hj
      simp only [List.length_nil, Nat.add_zero] at hj
      exact hmin j hj
    · exact hstrict
  | cons a tl ih =>
    intro n best hdrop hblen hbn hmin hstrict
    have hnlt : n < d.length := by
      by_contra hc
      have : d.drop n = [] := List.drop_eq_nil_iff.mpr (by omega)
      rw [this] at hdrop
      exact List.noConfusion hdrop.symm
    have hdn : d.getD n 0 = a := by
      have h0 : (d.drop n)[0]? = d[n + 0]? := List.getElem?_drop d n 0
      rw [hdrop] at h0
      simp only [List.getElem?_cons_zero, Nat.add_zero] at h0
      rw [List.getD_eq_getElem?_getD, ← h0]
      rfl
    have hdtl : d.drop (n + 1) = tl := by
      have : List.drop 1 (List.drop n d) = List.drop (n + 1) d := List.drop_drop 1 n d
      rw [← this, hdrop]
      rfl
    have hstep : (List.enumFrom n (a :: tl)) = (n, a) :: List.enumFrom (n+1) tl := rfl
    rw [hstep]
    simp only [List.foldl_cons]
    by_cases hlt : a < d.getD best 0
    · simp only [hlt, if_pos]
      have := ih (n+1) n hdtl hnlt (by omega)
        (fun j hj => by
          rcases Nat.lt_succ_iff_lt_or_eq.mp hj with hj' | hj'
          · calc d.getD n 0 = a := hdn
              _ ≤ d.getD best 0 := le_of_lt hlt
              _ ≤ d.getD j 0 := hmin j hj'
          · rw [hj'])
        (fun j hj => by
          calc d.getD n 0 = a := hdn
            _ < d.getD best 0 := hlt
            _ ≤ d.getD j 0 := hmin j (by omega))
      refine ⟨this.1, ?_, this.2.2⟩
      · intro j hj
        exact this.2.1 j (by simp only [List.length_cons] at hj ⊢; omega)
    · simp only [hlt, if_neg, if_false]
      have := ih (n+1) best hdtl hblen (by omega)
        (fun j hj => by
          rcases Nat.lt_succ_iff_lt_or_eq.mp hj with hj' | hj'
          · exact hmin j hj'
          · rw [hj', hdn]; exact le_of_not_lt hlt)
        hstrict
      refine ⟨this.1, ?_, this.2.2⟩
      · intro j hj
        exact this.2.1 j (by simp only [List.length_cons] at hj ⊢; omega)

lemma nearestIndex_spec (d : List ℚ) (h : d ≠ []) :
    nearestIndex d < d.length ∧
    (∀ j, j < d.length → d.getD (nearestIndex d) 0 ≤ d.getD j 0) ∧
    (∀ j, j < nearestIndex d → d.getD (nearestIndex d) 0 < d.getD j 0) := by
  have h0 : 0 < d.length := List.length_pos.mpr h
  have := nearestFold_spec d d 0 0 rfl h0 (by omega)
    (fun j hj => by omega)
    (fun j hj => by omega)
  have henum : d.enum = d.enumFrom 0 := rfl
  unfold nearestIndex
  rw [henum]
  exact ⟨this.1, fun j hj => this.2.1 j (by omega), this.2.2⟩

/-! ### Helper lemmas about statusAt -/

lemma trackedNextIndex_cases (d : List ℚ) :
    trackedNextIndex d = -1 ∨ trackedNextIndex d = (nearestIndex d : Int) ∨
    trackedNextIndex d = (nearestIndex d : Int) + 1 := by
  unfold trackedNextIndex trackedNextIndexRaw
  split_ifs <;> simp

lemma statusBase_ne_current (d : List ℚ) (i : Nat) :
    statusBase d i ≠ StopStatus.current := by
  unfold statusBase
  split_ifs <;> simp

lemma statusBase_ne_next (d : List ℚ) (i : Nat) :
    statusBase d i ≠ StopStatus.next := by
  unfold statusBase
  split_ifs <;> simp

lemma statusBase_completed_iff (d : List ℚ) (i : Nat) :
    statusBase d i = StopStatus.completed ↔ (i : Int) ≤ lastCompletedIndex d := by
  unfold statusBase
  split_ifs with h <;> simp [h]

lemma statusAt_current_iff (d : List ℚ) (i : Nat) :
    statusAt d i = StopStatus.current ↔ (isAtStop d = true ∧ i = nearestIndex d) := by
  unfold statusAt
  split_ifs with h1 h2
  · simp [h1]
  · simp [h1]
  · simpa [h1] using statusBase_ne_current d i

lemma statusAt_next_imp (d : List ℚ) (i : Nat) :
    statusAt d i = StopStatus.next → (i : Int) = trackedNextIndex d := by
  unfold statusAt
  split_ifs with h1 h2 <;> intro hc
  · exact absurd hc (by simp)
  · exact h2
  · exact absurd hc (statusBase_ne_next d i)

lemma statusAt_completed_imp (d : List ℚ) (i : Nat) :
    statusAt d i = StopStatus.completed → i < nearestIndex d := by
  unfold statusAt
  split_ifs with h1 h2 <;> intro hc
  · exact absurd hc (by simp)
  · exact absurd hc (by simp)
  · have hle := (statusBase_completed_iff d i).mp hc
    unfold lastCompletedIndex at hle
    rw [le_max_iff] at hle
    omega

lemma statusAt_not_completed_imp (d : List ℚ) (i : Nat) :
    statusAt d i ≠ StopStatus.completed → nearestIndex d ≤ i := by
  intro hne
  by_contra hlt
  push_neg at hlt
  apply hne
  unfold statusAt
  have hnx := trackedNextIndex_cases d
  have h1 : ¬ (isAtStop d = true ∧ i = nearestIndex d) := by
    rintro ⟨-, rfl⟩
    omega
  have h2 : ¬ ((i : Int) = trackedNextIndex d) := by
    rcases hnx with h | h | h <;> rw [h] <;> omega
  rw [if_neg h1, if_neg h2, statusBase_completed_iff]
  unfold lastCompletedIndex
  rw [le_max_iff]
  left
  omega

/-! ### Access lemmas for the decorated stop list -/

lemma routeProgressTracked_stops_length (busSpeed : ℚ) (stops : List EnrichedStop) :
    ((routeProgressTracked busSpeed stops).stops).length = stops.length := by
  simp [routeProgressTracked]

lemma routeProgressTracked_status_getD (busSpeed : ℚ) (stops : List EnrichedStop)
    (i : Nat) (h : i < stops.length) :
    (((routeProgressTracked busSpeed stops).stops).getD i default).status
      = statusAt (stops.map (fun s => s.distanceMeters)) i := by
  simp only [routeProgressTracked]
  rw [List.getD_eq_getElem?_getD, List.getElem?_map, List.getElem?_enum,
    List.getElem?_eq_getElem h]
  rfl

lemma routeProgress_tracked_eq (busSpeed : ℚ) (stops : List EnrichedStop)
    (h : stops.length ≠ 0) :
    routeProgress true true busSpeed stops = routeProgressTracked busSpeed stops := by
  simp [routeProgress, h]

/-! ### Claim theorems for the progress engine -/

/-- C1: for every ordered route stop list and every location sample with
tracking active (here: every list of per-stop distances induced by a sample),
the derived statuses have at most one `current` stop, at most one `next`
stop, and the `completed` stops form a strict prefix by index: every
completed index is strictly below every non-completed index. -/
theorem routeProgress_status_invariant (busSpeed : ℚ) (stops : List EnrichedStop) :
    (∀ i j, i < ((routeProgress true true busSpeed stops).stops).length →
        j < ((routeProgress true true busSpeed stops).stops).length →
        (((routeProgress true true busSpeed stops).stops).getD i default).status
          = StopStatus.current →
        (((routeProgress true true busSpeed stops).stops).getD j default).status
          = StopStatus.current → i = j) ∧
    (∀ i j, i < ((routeProgress true true busSpeed stops).stops).length →
        j < ((routeProgress true true busSpeed stops).stops).length →
        (((routeProgress true true busSpeed stops).stops).getD i default).status
          = StopStatus.next →
        (((routeProgress true true busSpeed stops).stops).getD j default).status
          = StopStatus.next → i = j) ∧
    (∀ i j, i < ((routeProgress true true busSpeed stops).stops).length →
        j < ((routeProgress true true busSpeed stops).stops).length →
        (((routeProgress true true busSpeed stops).stops).getD i default).status
          = StopStatus.completed →
        (((routeProgress true true busSpeed stops).stops).getD j default).status
          ≠ StopStatus.completed → i < j) := by
  by_cases hlen : stops.length = 0
  · have hE : (routeProgress true true busSpeed stops).stops = [] := by
      simp [routeProgress, hlen]
    refine ⟨?_, ?_, ?_⟩ <;> intro i j hi hj <;> rw [hE] at hi <;> simp at hi
  · rw [routeProgress_tracked_eq busSpeed stops hlen]
    have hL := routeProgressTracked_stops_length busSpeed stops
    refine ⟨?_, ?_, ?_⟩
    · intro i j hi hj hci hcj
      rw [hL] at hi hj
      rw [routeProgressTracked_status_getD busSpeed stops i hi] at hci
      rw [routeProgressTracked_status_getD busSpeed stops j hj] at hcj
      have h1 := (statusAt_current_iff _ i).mp hci
      have h2 := (statusAt_current_iff _ j).mp hcj
      rw [h1.2, h2.2]
    · intro i j hi hj hci hcj
      rw [hL] at hi hj
      rw [routeProgressTracked_status_getD busSpeed stops i hi] at hci
      rw [routeProgressTracked_status_getD busSpeed stops j hj] at hcj
      have h1 := statusAt_next_imp _ i hci
      have h2 := statusAt_next_imp _ j hcj
      omega
    · intro i j hi hj hci hcj
      rw [hL] at hi hj
      rw [routeProgressTracked_status_getD busSpeed stops i hi] at hci
      rw [routeProgressTracked_status_getD busSpeed stops j hj] at hcj
      have h1 := statusAt_completed_imp _ i hci
      have h2 := statusAt_not_completed_imp _ j hcj
      omega

/-- Concrete route used by the witnesses: distances 200 m, 100 m, 400 m. -/
def demoStops : List EnrichedStop :=
  [{ distanceMeters := 200 }, { distanceMeters := 100 }, { distanceMeters := 400 }]

/-- Witness for C1 at a concrete input: stop 1 is `current` (unique), stop 0
is `completed`, stop 2 is `next`, and the prefix ordering holds. -/
theorem routeProgress_status_invariant_witness :
    (0 : Nat) < 2 ∧ (1 : Nat) = 1 := by
  constructor
  · exact (routeProgress_status_invariant 5 demoStops).2.2 0 2
      (by decide) (by decide) (by decide) (by decide)
  · exact (routeProgress_status_invariant 5 demoStops).1 1 1
      (by decide) (by decide) (by decide) (by decide)

/-- C4: `nearestIndex` returns an in-range index of minimal distance, and on
ties the lowest such index. -/
theorem nearestIndex_argmin (d : List ℚ) (h : d ≠ []) :
    nearestIndex d < d.length ∧
    (∀ j, j < d.length → d.getD (nearestIndex d) 0 ≤ d.getD j 0) ∧
    (∀ j, j < d.length → d.getD j 0 = d.getD (nearestIndex d) 0 → nearestIndex d ≤ j) := by
  obtain ⟨h1, h2, h3⟩ := nearestIndex_spec d h
  refine ⟨h1, h2, ?_⟩
  intro j hj heq
  by_contra hlt
  push_neg at hlt
  have := h3 j hlt
  rw [heq] at this
  exact lt_irrefl _ this

/-- Witness for C4: on distances [5, 2, 2, 7] the fold picks index 1 and the
tie at index 2 is not below it. -/
theorem nearestIndex_argmin_witness :
    nearestIndex [(5 : ℚ), 2, 2, 7] ≤ 2 :=
  (nearestIndex_argmin [(5 : ℚ), 2, 2, 7] (by decide)).2.2 2 (by decide) (by decide)

/-- C3: the vehicle is classified at a stop exactly when the nearest-stop
distance is at most 140 meters; 140 m yields true, 141 m false; and when at
a stop the nearest stop is classified `current`. -/
theorem isAtStop_threshold :
    (∀ d : List ℚ, isAtStop d = true ↔ nearestDistance d ≤ 140) ∧
    isAtStop [(140 : ℚ)] = true ∧
    isAtStop [(141 : ℚ)] = false ∧
    (∀ (busSpeed : ℚ) (stops : List EnrichedStop),
        stops ≠ [] →
        isAtStop (stops.map (fun s => s.distanceMeters)) = true →
        (((routeProgressTracked busSpeed stops).stops).getD
            (nearestIndex (stops.map (fun s => s.distanceMeters))) default).status
          = StopStatus.current) := by
  refine ⟨?_, by decide, by decide, ?_⟩
  · intro d
    simp [isAtStop, ARRIVAL_DISTANCE_THRESHOLD]
  · intro busSpeed stops hne hat
    have hmapne : stops.map (fun s => s.distanceMeters) ≠ [] := by
      simpa using hne
    have hlt := (nearestIndex_spec _ hmapne).1
    rw [List.length_map] at hlt
    rw [routeProgressTracked_status_getD busSpeed stops _ hlt]
    rw [statusAt_current_iff]
    exact ⟨hat, rfl⟩

/-- Witness for C3 at a concrete input: a single stop at exactly 140 m is
classified `current`. -/
theorem isAtStop_threshold_witness :
    (((routeProgressTracked 0 [{ distanceMeters := (140 : ℚ) }]).stops).getD 0 default).status
      = StopStatus.current := by
  have h := isAtStop_threshold.2.2.2 0 [{ distanceMeters := (140 : ℚ) }]
    (by decide) (by decide)
  have hn : nearestIndex (([{ distanceMeters := (140 : ℚ) }] : List EnrichedStop).map
      (fun s => s.distanceMeters)) = 0 := by decide
  rw [hn] at h
  exact h

/-- C2: the ETA label of the `next` stop: speed at most 0.5 m/s gives
"Awaiting movement"; otherwise minutes = round(distance / max(speed, 0.1) / 60)
floored at 1, and the label is "Arriving now" when minutes is at most 1,
else "Arriving in {minutes} min". -/
theorem etaForDistance_spec (busSpeed distance : ℚ) :
    (busSpeed ≤ 1/2 → etaForDistance busSpeed distance = "Awaiting movement") ∧
    (1/2 < busSpeed →
      etaMinutes busSpeed distance = max (round (distance / max busSpeed (1/10) / 60)) 1 ∧
      1 ≤ etaMinutes busSpeed distance ∧
      (etaMinutes busSpeed distance ≤ 1 →
        etaForDistance busSpeed distance = "Arriving now") ∧
      (1 < etaMinutes busSpeed distance →
        etaForDistance busSpeed distance =
          "Arriving in " ++ toString (etaMinutes busSpeed distance) ++ " min")) := by
  refine ⟨?_, ?_⟩
  · intro h
    unfold etaForDistance
    rw [if_pos h]
  · intro h
    refine ⟨rfl, le_max_right _ _, ?_, ?_⟩
    · intro hmin
      unfold etaForDistance
      rw [if_neg (not_le.mpr h), if_pos hmin]
    · intro hmin
      unfold etaForDistance
      rw [if_neg (not_le.mpr h), if_neg (not_le.mpr hmin)]

/-- Witness for C2: at 5 m/s and 3000 m the label is "Arriving in 10 min";
at 0 m/s it is "Awaiting movement". -/
theorem etaForDistance_spec_witness :
    etaForDistance 5 3000 = "Arriving in 10 min" ∧
    etaForDistance 0 3000 = "Awaiting movement" := by
  have h10 : etaMinutes 5 3000 = 10 := by
    unfold etaMinutes
    norm_num [round_eq]
  constructor
  · have h := ((etaForDistance_spec 5 3000).2 (by norm_num)).2.2.2 (by rw [h10]; norm_num)
    rw [h, h10]
    rfl
  · exact (etaForDistance_spec 0 3000).1 (by norm_num)

/-! ## Bus-location subscriber callbacks -/

/-- A JavaScript field value that may be `undefined` (absent), `null`, or a
proper value. -/
inductive JsOpt (α : Type) where
  | undef : JsOpt α
  | null : JsOpt α
  | val : α → JsOpt α
deriving DecidableEq, Inhabited

/-- The JS null-coalescing operator `a ?? b`: yields `a` unless `a` is
`null` or `undefined`, in which case it yields `b`. -/
def JsOpt.coalesce {α : Type} : JsOpt α → JsOpt α → JsOpt α
  | JsOpt.val a, _ => JsOpt.val a
  | _, b => b

/-- JS truthiness of a string-valued field: `undefined` and `null` are
falsy, a string is falsy exactly when it is empty. -/
def JsOpt.truthy : JsOpt String → Bool
  | JsOpt.val s => decide (s ≠ "")
  | _ => false

/-- The `currentLocation` object of a location record.  `none` in a
coordinate models a missing or non-finite JS number (`Number.isFinite`
becomes `Option.isSome`). -/
structure JsCoord where
  latitude : Option ℚ := none
  longitude : Option ℚ := none
  speed : Option ℚ := none
  heading : Option ℚ := none
deriving DecidableEq, Inhabited

/-- A bus-location record as delivered by `subscribeToBusLocation`.
`isTracking := false` also models an absent flag (both are JS-falsy). -/
structure Snapshot where
  isTracking : Bool := false
  activeTrackingSession : JsOpt String := JsOpt.undef
  trackingSessionId : JsOpt String := JsOpt.undef
  currentLocation : Option JsCoord := none
  speed : Option ℚ := none
  heading : Option ℚ := none
  lastUpdate : Option Nat := none
deriving DecidableEq, Inhabited

/-- `const sessionMarker = snapshot?.activeTrackingSession ?? snapshot?.trackingSessionId`
(MapScreen.js:508-509). -/
def mapSessionMarker (snap : Option Snapshot) : JsOpt String :=
  JsOpt.coalesce
    (match snap with | some s => s.activeTrackingSession | none => JsOpt.undef)
    (match snap with | some s => s.trackingSessionId | none => JsOpt.undef)

/-- `const trackingActive = Boolean(snapshot?.isTracking && (sessionMarker !== undefined ? sessionMarker : snapshot?.isTracking))`
(MapScreen.js:510-513). -/
def mapTrackingActive (snap : Option Snapshot) : Bool :=
  (match snap with | some s => s.isTracking | none => false) &&
  (match mapSessionMarker snap with
    | JsOpt.undef => match snap with | some s => s.isTracking | none => false
    | m => m.truthy)

/-- `const hasValidCoords = Number.isFinite(coords?.latitude) && Number.isFinite(coords?.longitude)`
(MapScreen.js:514-515). -/
def hasValidCoords (snap : Option Snapshot) : Bool :=
  ((snap.bind (fun s => s.currentLocation)).bind (fun c => c.latitude)).isSome &&
  ((snap.bind (fun s => s.currentLocation)).bind (fun c => c.longitude)).isSome

/-- The bus-location state kept by MapScreen (`setBusLocation` argument).
The `updatedAt` timestamp is omitted (`snapshot?.lastUpdate || Date.now()`
depends on the wall clock; no claim mentions it). -/
structure BusLocationState where
  latitude : ℚ
  longitude : ℚ
  speed : ℚ
  heading : ℚ
deriving DecidableEq, Inhabited

/-- Observer state of MapScreen: the `busLocation` and `isBusTracking`
React states set by the subscriber callback. -/
structure MapObserverState where
  busLocation : Option BusLocationState
  isBusTracking : Bool
deriving DecidableEq, Inhabited

/-- The `subscribeToBusLocation` callback of MapScreen (MapScreen.js:507-531):
when tracking is active and the coordinates are finite it stores the
normalized location and sets the tracking flag, otherwise it clears both. -/
def mapOnSnapshot (snap : Option Snapshot) : MapObserverState :=
  if mapTrackingActive snap && hasValidCoords snap then
    { busLocation := some
        { latitude := ((snap.bind (fun s => s.currentLocation)).bind (fun c => c.latitude)).getD 0,
          longitude := ((snap.bind (fun s => s.currentLocation)).bind (fun c => c.longitude)).getD 0,
          speed := ((snap.bind (fun s => s.speed)).or
            ((snap.bind (fun s => s.currentLocation)).bind (fun c => c.speed))).getD 0,
          heading := ((snap.bind (fun s => s.heading)).or
            ((snap.bind (fun s => s.currentLocation)).bind (fun c => c.heading))).getD 0 },
      isBusTracking := true }
  else { busLocation := none, isBusTracking := false }

/-- `const isTrackingActive = Boolean(locationData?.isTracking && (locationData?.activeTrackingSession ?? locationData?.trackingSessionId ?? locationData?.isTracking))`
(BusLiveTrackingScreen.js:74-77).  Unlike MapScreen, a `null` marker also
falls through (the second `??` skips null as well). -/
def liveTrackingActive (snap : Option Snapshot) : Bool :=
  (match snap with | some s => s.isTracking | none => false) &&
  (match mapSessionMarker snap with
    | JsOpt.val s => decide (s ≠ "")
    | _ => match snap with | some s => s.isTracking | none => false)

/-- The `newLocation` object built by BusLiveTrackingScreen.  The raw
coordinates are copied without a finiteness check; `driverName`,
`timestamp` and `accuracy` are display-only and omitted. -/
structure LiveBusLocation where
  latitude : Option ℚ
  longitude : Option ℚ
  isTracking : Bool
  speed : Option ℚ
  heading : ℚ
deriving DecidableEq, Inhabited

/-- The `subscribeToBusLocation` callback of BusLiveTrackingScreen
(BusLiveTrackingScreen.js:66-115): `if (locationData && locationData.currentLocation && isTrackingActive)`
stores the raw location, every other branch clears it (`setBusLocation(null)`). -/
def liveOnSnapshot (snap : Option Snapshot) : Option LiveBusLocation :=
  match snap with
  | none => none
  | some s =>
    match s.currentLocation with
    | some c =>
        if liveTrackingActive (some s) then
          some { latitude := c.latitude, longitude := c.longitude,
                 isTracking := liveTrackingActive (some s),
                 speed := s.speed, heading := s.heading.getD 0 }
        else none
    | none => none

/-! ### Claim theorems for the subscriber callbacks -/

/-- A record with tracking active and a `currentLocation` object whose
coordinates are not finite numbers. -/
def snapNonFinite : Snapshot :=
  { isTracking := true,
    activeTrackingSession := JsOpt.val "session-1",
    currentLocation := some { latitude := none, longitude := none } }

/-- Counterexample to C5 as stated: the BusLiveTrackingScreen subscriber
receives a record without finite coordinates (so `hasValidCoords` is false),
yet its view still holds a current bus location — the callback only checks
that the `currentLocation` object is present, not that its numbers are
finite. -/
theorem observer_nonfinite_counterexample :
    hasValidCoords (some snapNonFinite) = false ∧
    liveOnSnapshot (some snapNonFinite) ≠ none := by
  constructor
  · rfl
  · intro h
    simp [liveOnSnapshot, snapNonFinite, liveTrackingActive, mapSessionMarker,
      JsOpt.coalesce] at h

/-- C5 amended: on `isTracking = false` or a missing record both observers
clear their view; on a record without finite coordinates the MapScreen
observer clears its view (BusLiveTrackingScreen checks only that the
`currentLocation` object is present, not coordinate finiteness). -/
theorem observer_no_stale_location (snap : Option Snapshot) :
    (snap = none →
      mapOnSnapshot snap = { busLocation := none, isBusTracking := false } ∧
      liveOnSnapshot snap = none) ∧
    (∀ s, snap = some s → s.isTracking = false →
      mapOnSnapshot snap = { busLocation := none, isBusTracking := false } ∧
      liveOnSnapshot snap = none) ∧
    (hasValidCoords snap = false →
      mapOnSnapshot snap = { busLocation := none, isBusTracking := false }) := by
  refine ⟨?_, ?_, ?_⟩
  · rintro rfl
    exact ⟨rfl, rfl⟩
  · rintro s rfl hfalse
    constructor
    · have hact : mapTrackingActive (some s) = false := by
        simp [mapTrackingActive, hfalse]
      simp [mapOnSnapshot, hact]
    · have hact : liveTrackingActive (some s) = false := by
        simp [liveTrackingActive, hfalse]
      simp [liveOnSnapshot, hact]
      cases s.currentLocation <;> simp [hact]
  · intro hcoords
    simp [mapOnSnapshot, hcoords]

/-- A record with `isTracking = false` but a stale stored location. -/
def snapStopped : Snapshot :=
  { isTracking := false,
    activeTrackingSession := JsOpt.val "session-1",
    currentLocation := some { latitude := some 11, longitude := some 76 } }

/-- Witness for the amended C5 at a concrete input: a record with
`isTracking = false` but a stale stored location is rendered as
"no current position" by both observers. -/
theorem observer_no_stale_location_witness :
    mapOnSnapshot (some snapStopped) = { busLocation := none, isBusTracking := false } ∧
    liveOnSnapshot (some snapStopped) = none :=
  (observer_no_stale_location _).2.1 _ rfl rfl

/-- A snapshot whose `activeTrackingSession` field is present but null while
`trackingSessionId` is absent: the JS `??` skips the null, the coalesced
marker is `undefined`, and the callback falls back to `isTracking`. -/
def snapNullMarker : Snapshot :=
  { isTracking := true,
    activeTrackingSession := JsOpt.null,
    trackingSessionId := JsOpt.undef,
    currentLocation := some { latitude := some 11, longitude := some 76 } }

/-- Counterexample to C10 as stated: a snapshot with a present-but-null
session-marker field (`activeTrackingSession: null`, `trackingSessionId`
absent) and `isTracking: true` is NOT treated as inactive by the map
subscriber — the location is kept and the tracking flag stays true. -/
theorem mapObserver_null_marker_counterexample :
    (mapOnSnapshot (some snapNullMarker)).isBusTracking = true ∧
    (mapOnSnapshot (some snapNullMarker)).busLocation ≠ none := by
  constructor
  · rfl
  · intro h
    simp [mapOnSnapshot, snapNullMarker, mapTrackingActive, mapSessionMarker,
      JsOpt.coalesce, hasValidCoords] at h

/-- C10 amended: whenever the coalesced session marker
`activeTrackingSession ?? trackingSessionId` is defined (not `undefined`)
and falsy (null, or an empty string), the map observer treats tracking as
inactive and clears the bus location even when `isTracking` is true.  When
the coalescing yields `undefined` (both fields absent, or a null
`activeTrackingSession` with an absent `trackingSessionId`, since `??`
skips null), the observer falls back to `isTracking` instead. -/
theorem mapObserver_falsy_marker (snap : Option Snapshot)
    (h1 : mapSessionMarker snap ≠ JsOpt.undef)
    (h2 : (mapSessionMarker snap).truthy = false) :
    mapOnSnapshot snap = { busLocation := none, isBusTracking := false } := by
  have hact : mapTrackingActive snap = false := by
    unfold mapTrackingActive
    rcases hm : mapSessionMarker snap with _ | _ | s
    · exact absurd hm h1
    · simp [JsOpt.truthy]
    · rw [hm] at h2
      simp only [JsOpt.truthy] at h2
      simp [JsOpt.truthy, h2]
  simp [mapOnSnapshot, hact]

/-- A snapshot with an empty-string `trackingSessionId`, `isTracking = true`
and finite coordinates. -/
def snapEmptyMarker : Snapshot :=
  { isTracking := true,
    trackingSessionId := JsOpt.val "",
    currentLocation := some { latitude := some 11, longitude := some 76 } }

/-- Witness for the amended C10 at a concrete input: an empty-string
`trackingSessionId` with `isTracking = true` and valid coordinates is
cleared. -/
theorem mapObserver_falsy_marker_witness :
    mapOnSnapshot (some snapEmptyMarker) = { busLocation := none, isBusTracking := false } :=
  mapObserver_falsy_marker _ (by decide) (by decide)

/-! ## Notification server: recipient resolver and token pruner
(server notification service, `getRecipientsByBus` / `getRecipientsByRole` /
`removeTokens`) -/

/-- `const TARGET_ROLES = ['student', 'coadmin', 'incharge']`. -/
def TARGET_ROLES : List String := ["student", "coadmin", "incharge"]

/-- A `users/{uid}` document as read by the resolver.  `fcmTokens := none`
models a missing or non-array field (the `Array.isArray` guard maps it to
an empty token list); list entries model the stored token strings. -/
structure UserDoc where
  uid : String
  role : String := ""
  busNumber : Option String := none
  fcmTokens : Option (List String) := none
deriving DecidableEq, Inhabited

/-- A recipient record returned by the resolver. -/
structure Recipient where
  uid : String
  role : String
  busNumber : Option String := none
  tokens : List String
deriving DecidableEq, Inhabited

/-- JS `.toLowerCase()` on the ASCII role strings: lower-case every
character. -/
def jsToLower (s : String) : String := String.mk (s.data.map Char.toLower)

/-- `tokens.filter(Boolean)`: JS keeps a string exactly when it is truthy,
i.e. non-empty.  Whitespace-only strings are truthy and therefore kept. -/
def filterBooleanTokens (tokens : List String) : List String :=
  tokens.filter (fun t => decide (t ≠ ""))

/-- `getRecipientsByBus(busNumber)`: the Firestore query
`where('busNumber','==',busNumber)` becomes a filter over the user
documents; docs whose lower-cased role is outside `TARGET_ROLES` are
dropped; token arrays pass through `filter(Boolean)`. -/
def getRecipientsByBus (users : List UserDoc) (busNumber : String) : List Recipient :=
  if busNumber = "" then []
  else
    (users.filter (fun u => decide (u.busNumber = some busNumber))).filterMap (fun u =>
      if TARGET_ROLES.contains (jsToLower u.role) then
        some { uid := u.uid, role := jsToLower u.role, busNumber := u.busNumber,
               tokens := filterBooleanTokens (u.fcmTokens.getD []) }
      else none)

/-- `getRecipientsByRole(role)`: lower-cases the requested role, queries
`where('role','==',normalizedRole)`, and maps every matching document to a
recipient with `filter(Boolean)`-cleaned tokens. -/
def getRecipientsByRole (users : List UserDoc) (role : String) : List Recipient :=
  if role = "" then []
  else
    (users.filter (fun u => decide (u.role = jsToLower role))).map (fun u =>
      { uid := u.uid, role := jsToLower role,
        tokens := filterBooleanTokens (u.fcmTokens.getD []) })

/-- Firestore `FieldValue.arrayRemove(...tokens)`: removes every occurrence
of each listed element from the stored array. -/
def arrayRemove (removals tokens : List String) : List String :=
  tokens.filter (fun t => decide (t ∉ removals))

/-- The per-uid token store (uid, fcmTokens pairs). -/
abbrev TokenDb : Type := List (String × List String)

/-- The stored token list of a uid, if the document exists. -/
def tokensOf (db : TokenDb) (uid : String) : Option (List String) :=
  (List.find? (fun p => decide (p.1 = uid)) db).map (fun p => p.2)

/-- `removeTokens(uid, tokens)`: returns unchanged on a falsy uid or an
empty token list; otherwise updates the user document with
`arrayRemove(...tokens)`.  A failing `docRef.update` (e.g. missing
document) is caught and logged by the source, so the operation never
raises; here that is modelled by leaving non-matching documents as they
are. -/
def removeTokens (db : TokenDb) (uid : String) (tokens : List String) : TokenDb :=
  if uid = "" ∨ tokens = [] then db
  else db.map (fun p => if p.1 = uid then (p.1, arrayRemove tokens p.2) else p)

/-! ## Trip-start relay entry point (src/services/firebaseConfig.js) -/

/-- The delivery report returned by the `/startBus` endpoint. -/
structure DeliveryReport where
  attempted : Nat := 0
  succeeded : Nat := 0
  prunedCount : Nat := 0
deriving DecidableEq, Inhabited

/-- The JSON payload posted to `/startBus`. -/
structure TripStartPayload where
  busNumber : String
  driverName : String
  initiatedBy : Option String
  excludeToken : Option String
deriving DecidableEq, Inhabited

/-- JS `value || null` on an optional string: a falsy value (absent or
empty) becomes null. -/
def orNull (v : Option String) : Option String :=
  match v with
  | some s => if s = "" then none else some s
  | none => none

/-- `notifyBusTrackingStarted` (firebaseConfig.js:266-284):
throws when `busNumber` is falsy, before any request is sent; otherwise
posts `{busNumber, driverName, initiatedBy, excludeToken}` to `/startBus`
and returns the response.  `post` abstracts `postJson('/startBus', payload)`. -/
def notifyBusTrackingStarted (post : TripStartPayload → DeliveryReport)
    (busNumber driverName : String) (excludeUid excludeToken : Option String) :
    Except String DeliveryReport :=
  if busNumber = "" then
    Except.error "busNumber is required to trigger bus start notifications"
  else
    Except.ok (post
      { busNumber := busNumber, driverName := driverName,
        initiatedBy := orNull excludeUid, excludeToken := orNull excludeToken })

/-! ## Location-update admission filter -/

/-- Modelled from the spec: the admission filter lives in
`src/services/locationService.js` (`updateBusLocation`), which is not among
the provided sources; only the server guide describes it.  Per spec §4.1,
the decision depends on whether a previous committed sample exists and, if
so, on the great-circle distance between the previous sample and the
candidate and on the time elapsed since the previous capture; those two
quantities are carried here. -/
structure PreviousSample where
  distanceMeters : ℚ
  secondsSincePrevious : ℚ
deriving DecidableEq, Inhabited

/-- Decision of the admission filter. -/
inductive Decision where
  | accept : Decision
  | reject : Decision
deriving DecidableEq, Inhabited

/-- Modelled from the spec: `admit(previous, candidate)` rejects exactly
when `previous` exists and both distance(previous, candidate) < 20 meters
and time since previous capture < 4 seconds; the first sample of a session
(no previous) is always accepted (spec §4.1, §8). -/
def admitSample (previous : Option PreviousSample) : Decision :=
  match previous with
  | none => Decision.accept
  | some p =>
      if p.distanceMeters < 20 ∧ p.secondsSincePrevious < 4 then Decision.reject
      else Decision.accept

/-! ### Claim theorems for the server-side components -/

/-- C6 (modelled from the spec): `admitSample` rejects exactly when a previous
committed sample exists and both the distance is below 20 meters and the
time delta below 4 seconds; distance at least 20 m or time delta at least
4 s is accepted regardless of the other quantity; the first sample of a
session (no previous) is always accepted. -/
theorem admit_spec :
    admitSample none = Decision.accept ∧
    (∀ d t : ℚ, admitSample (some ⟨d, t⟩) = Decision.reject ↔ d < 20 ∧ t < 4) ∧
    (∀ d t : ℚ, 20 ≤ d → admitSample (some ⟨d, t⟩) = Decision.accept) ∧
    (∀ d t : ℚ, 4 ≤ t → admitSample (some ⟨d, t⟩) = Decision.accept) := by
  refine ⟨rfl, ?_, ?_, ?_⟩
  · intro d t
    simp only [admitSample]
    split_ifs with h
    · simp [h]
    · simp [h]
  · intro d t h
    simp only [admitSample]
    rw [if_neg]
    rintro ⟨h1, -⟩
    exact absurd h (not_le.mpr h1)
  · intro d t h
    simp only [admitSample]
    rw [if_neg]
    rintro ⟨-, h2⟩
    exact absurd h (not_le.mpr h2)

/-- Witness for C6: 25 m jump in 1 s accepted, 5 m after 10 s accepted,
5 m after 1 s rejected. -/
theorem admit_spec_witness :
    admitSample (some ⟨25, 1⟩) = Decision.accept ∧
    admitSample (some ⟨5, 10⟩) = Decision.accept ∧
    admitSample (some ⟨5, 1⟩) = Decision.reject := by
  refine ⟨admit_spec.2.2.1 25 1 (by norm_num), admit_spec.2.2.2 5 10 (by norm_num), ?_⟩
  exact (admit_spec.2.1 5 1).mpr (by norm_num)

/-- A user document carrying a whitespace-only device token. -/
def blankTokenUser : UserDoc :=
  { uid := "u1", role := "student", busNumber := some "BUS-21",
    fcmTokens := some [" "] }

/-- The recipient produced for `blankTokenUser`. -/
def blankRecipient : Recipient :=
  { uid := "u1", role := "student", busNumber := some "BUS-21", tokens := [" "] }

/-- Counterexample to C7 as stated: `filter(Boolean)` removes only falsy
(empty) strings, so a whitespace-only token " " survives into the returned
recipient list, although it is blank. -/
theorem recipients_blank_token_counterexample :
    (getRecipientsByBus [blankTokenUser] "BUS-21").map (fun r => r.tokens) = [[" "]] ∧
    (" " : String) ≠ "" ∧ (" " : String).toList.all Char.isWhitespace = true := by
  refine ⟨by decide, by decide, by decide⟩

/-- C7 amended: every recipient list returned by `getRecipientsByBus` and
`getRecipientsByRole` contains no empty-string tokens (JS-falsy values are
filtered); whitespace-only tokens are not filtered. -/
theorem recipients_no_empty_tokens (users : List UserDoc) (busNumber role : String) :
    (∀ r, r ∈ getRecipientsByBus users busNumber → ∀ t, t ∈ r.tokens → t ≠ "") ∧
    (∀ r, r ∈ getRecipientsByRole users role → ∀ t, t ∈ r.tokens → t ≠ "") := by
  have htok : ∀ (ts : List String) (t : String), t ∈ filterBooleanTokens ts → t ≠ "" := by
    intro ts t ht
    have := List.mem_filter.mp ht
    simpa using this.2
  constructor
  · intro r hr t ht
    unfold getRecipientsByBus at hr
    split_ifs at hr
    · simp at hr
    · obtain ⟨u, hu, huf⟩ := List.mem_filterMap.mp hr
      by_cases hrole : TARGET_ROLES.contains (jsToLower u.role)
      · rw [if_pos hrole] at huf
        obtain rfl := Option.some.inj huf
        exact htok _ t ht
      · rw [if_neg hrole] at huf
        exact absurd huf (by simp)
  · intro r hr t ht
    unfold getRecipientsByRole at hr
    split_ifs at hr
    · simp at hr
    · obtain ⟨u, hu, huf⟩ := List.mem_map.mp hr
      obtain rfl := huf
      exact htok _ t ht

/-- Witness for the amended C7: the blank (but non-empty) token returned
for `blankTokenUser` is indeed not the empty string. -/
theorem recipients_no_empty_tokens_witness :
    (" " : String) ≠ "" :=
  (recipients_no_empty_tokens [blankTokenUser] "BUS-21" "management").1
    blankRecipient (by decide) " " (by decide)

/-- C9: the trip-start operation errors when the vehicle identifier is
falsy — independently of the transport, so no request is involved — and
otherwise forwards {busNumber, driverName, initiatedBy, excludeToken} and
returns the delivery report produced by the endpoint. -/
theorem notifyBusTrackingStarted_spec (post post2 : TripStartPayload → DeliveryReport)
    (busNumber driverName : String) (excludeUid excludeToken : Option String) :
    (busNumber = "" →
      notifyBusTrackingStarted post busNumber driverName excludeUid excludeToken
        = Except.error "busNumber is required to trigger bus start notifications" ∧
      notifyBusTrackingStarted post busNumber driverName excludeUid excludeToken
        = notifyBusTrackingStarted post2 busNumber driverName excludeUid excludeToken) ∧
    (busNumber ≠ "" →
      notifyBusTrackingStarted post busNumber driverName excludeUid excludeToken
        = Except.ok (post { busNumber := busNumber, driverName := driverName, initiatedBy := orNull excludeUid, excludeToken := orNull excludeToken })) := by
  constructor
  · intro h
    unfold notifyBusTrackingStarted
    rw [if_pos h, if_pos h]
    exact ⟨rfl, rfl⟩
  · intro h
    unfold notifyBusTrackingStarted
    rw [if_neg h]

/-- A concrete `/startBus` endpoint returning a fixed delivery report. -/
def demoPost : TripStartPayload → DeliveryReport :=
  fun _ => { attempted := 3, succeeded := 2, prunedCount := 1 }

/-- Witness for C9: with a present bus number the report of the endpoint is
returned unchanged. -/
theorem notifyBusTrackingStarted_spec_witness :
    notifyBusTrackingStarted demoPost "BUS-21" "Asha" none none
      = Except.ok { attempted := 3, succeeded := 2, prunedCount := 1 } := by
  have h := (notifyBusTrackingStarted_spec demoPost demoPost "BUS-21" "Asha" none none).2
    (by decide)
  rw [h]
  rfl

/-! ### Claim theorem for the token pruner -/

lemma arrayRemove_idem (removals tokens : List String) :
    arrayRemove removals (arrayRemove removals tokens) = arrayRemove removals tokens := by
  unfold arrayRemove
  rw [List.filter_filter]
  simp

lemma removeTokens_twice (db : TokenDb) (uid : String) (tokens : List String) :
    removeTokens (removeTokens db uid tokens) uid tokens = removeTokens db uid tokens := by
  unfold removeTokens
  split_ifs with h
  · rfl
  · show List.map _ (List.map _ db) = _
    rw [List.map_map]
    apply List.map_congr_left
    intro p _
    by_cases hp : p.1 = uid
    · simp only [Function.comp, hp, if_pos, arrayRemove_idem]
    · simp only [Function.comp, hp, if_neg, ite_false]

lemma tokensOf_removeTokens (db : TokenDb) (uid : String) (tokens : List String)
    (h : ¬ (uid = "" ∨ tokens = [])) :
    tokensOf (removeTokens db uid tokens) uid
      = (tokensOf db uid).map (arrayRemove tokens) := by
  unfold removeTokens
  rw [if_neg h]
  induction db with
  | nil => rfl
  | cons p tl ih =>
    show tokensOf ((if p.1 = uid then (p.1, arrayRemove tokens p.2) else p) :: List.map _ tl) uid = _
    by_cases hp : p.1 = uid
    · rw [if_pos hp]
      unfold tokensOf
      rw [List.find?_cons_of_pos _ (by simpa using hp),
        List.find?_cons_of_pos _ (by simpa using hp)]
      rfl
    · rw [if_neg hp]
      unfold tokensOf
      rw [List.find?_cons_of_neg _ (by simpa using hp),
        List.find?_cons_of_neg _ (by simpa using hp)]
      exact ih

/-- C8: `removeTokens` is an idempotent set-difference on the stored token
collection: removing `[t]` twice equals removing it once (so the repeated
call is tolerated and changes nothing), and the resulting token list for
the uid is the original one minus every occurrence of `t`. -/
theorem removeTokens_idempotent_diff (db : TokenDb) (uid t : String) (h : uid ≠ "") :
    removeTokens (removeTokens db uid [t]) uid [t] = removeTokens db uid [t] ∧
    tokensOf (removeTokens (removeTokens db uid [t]) uid [t]) uid
      = (tokensOf db uid).map (fun ts => ts.filter (fun s => decide (s ≠ t))) := by
  have hcond : ¬ (uid = "" ∨ ([t] : List String) = []) := by
    rintro (h1 | h2)
    · exact h h1
    · exact List.noConfusion h2
  refine ⟨removeTokens_twice db uid [t], ?_⟩
  rw [removeTokens_twice db uid [t], tokensOf_removeTokens db uid [t] hcond]
  cases htd : tokensOf db uid with
  | none => rfl
  | some ts =>
    simp only [Option.map_some']
    congr 1
    unfold arrayRemove
    apply List.filter_congr
    intro s _
    simp [List.mem_singleton]

/-- A concrete token store for the C8 witness. -/
def demoDb : TokenDb := [("u1", ["tok1", "tok2", "tok1"])]

/-- Witness for C8: removing "tok1" twice from the store leaves exactly the
original tokens minus "tok1" and the second call changes nothing. -/
theorem removeTokens_idempotent_diff_witness :
    removeTokens (removeTokens demoDb "u1" ["tok1"]) "u1" ["tok1"]
        = removeTokens demoDb "u1" ["tok1"] ∧
    tokensOf (removeTokens (removeTokens demoDb "u1" ["tok1"]) "u1" ["tok1"]) "u1"
        = some ["tok2"] := by
  have h := removeTokens_idempotent_diff demoDb "u1" "tok1" (by decide)
  refine ⟨h.1, ?_⟩
  rw [h.2]
  decide
